import Mathlib

/-!
# Verification of the safety-assessment pipeline of `sih_backend`

Shallow embedding of the live server code in `src/main.py` (the authority
for the assessment pipeline and the REST handlers) and of
`src/ai_ml/models/isolation_forest_detector.py`.

Conventions used throughout:
* Python floats that enter only order comparisons (latitudes, longitudes,
  speeds) are modelled as rationals `ℚ`; the order of IEEE doubles embeds
  into `ℚ`, so every comparison is preserved.
* The heuristic anomaly score of `calculate_anomaly_score` is a sum of the
  literals 0.9/0.6/0.3/0.2/0.8/0.1 capped at 1.0; we carry it scaled by 10
  as a natural number (`anomaly10`).  For every reachable value the Python
  expression `int(anomaly_score * 30)` evaluates exactly to `3 * anomaly10`
  (checked against IEEE-754 double rounding for each of the finitely many
  reachable sums), so the scaled model is exact.
* Database tables are lists of rows; `datetime.now()` is a clock value
  carried in the server state; Supabase calls that can raise are modelled
  with `Except`.
-/

namespace SIH

/-- A row of the `restricted_zones` table.  `ring` is the first coordinate
ring `coordinates["coordinates"][0]`, a list of `(lon, lat)` pairs. -/
structure RestrictedZone where
  name : String
  zone_type : String
  danger_level : Int
  is_active : Bool
  ring : List (ℚ × ℚ)
  deriving Repr, DecidableEq

/-- A row of the `safe_zones` table (same shape, `safety_rating` instead of
`danger_level`). -/
structure SafeZone where
  name : String
  zone_type : String
  safety_rating : Int
  is_active : Bool
  ring : List (ℚ × ℚ)
  deriving Repr, DecidableEq

/-- The zone tables read by `check_geofence`. -/
structure ZoneDB where
  restricted_zones : List RestrictedZone
  safe_zones : List SafeZone
  deriving Repr, DecidableEq

/-- The dictionary returned by `check_geofence` in `src/main.py`:
one of the three success shapes, or the exception fallback
`{"geofence_alert": False, "error": str(e)}`. -/
inductive GeofenceResult where
  | restricted (zone_name zone_type : String) (danger_level : Int)
  | safe (zone_name zone_type : String) (safety_rating : Int)
  | unknown
  | error (msg : String)
  deriving Repr, DecidableEq

namespace GeofenceResult

/-- Python `result.get("in_restricted_zone")` truthiness. -/
def in_restricted_zone : GeofenceResult → Bool
  | .restricted _ _ _ => true
  | _ => false

/-- Python `result.get("in_safe_zone")` truthiness. -/
def in_safe_zone : GeofenceResult → Bool
  | .safe _ _ _ => true
  | _ => false

/-- Python `result.get("in_unknown_area")` truthiness. -/
def in_unknown_area : GeofenceResult → Bool
  | .unknown => true
  | _ => false

/-- Python `result.get("geofence_alert", False)`: `True` exactly on the
restricted-zone shape. -/
def geofence_alert : GeofenceResult → Bool
  | .restricted _ _ _ => true
  | _ => false

/-- Python `result.get("danger_level", 3)`. -/
def danger_level : GeofenceResult → Int
  | .restricted _ _ d => d
  | _ => 3

/-- Python `result.get("safety_rating", 5)`. -/
def safety_rating : GeofenceResult → Int
  | .safe _ _ r => r
  | _ => 5

/-- Python `result.get("error")` — present only on the exception fallback. -/
def error_field : GeofenceResult → Option String
  | .error e => some e
  | _ => none

end GeofenceResult

/-- Python `min` over the nonempty list `x :: xs`. -/
def minFold (x : ℚ) (xs : List ℚ) : ℚ := xs.foldl min x

/-- Python `max` over the nonempty list `x :: xs`. -/
def maxFold (x : ℚ) (xs : List ℚ) : ℚ := xs.foldl max x

/-- The body of the zone loop in `check_geofence`: skip zones with an empty
ring, otherwise test `min(lats) <= latitude <= max(lats) and
min(lons) <= longitude <= max(lons)` where `lats`/`lons` are the second and
first components of the ring points. -/
def ringHit (latitude longitude : ℚ) (ring : List (ℚ × ℚ)) : Bool :=
  match ring with
  | [] => false
  | p :: ps =>
    let lats := (p :: ps).map Prod.snd
    let lons := (p :: ps).map Prod.fst
    decide (minFold lats.head! lats.tail ≤ latitude ∧
            latitude ≤ maxFold lats.head! lats.tail ∧
            minFold lons.head! lons.tail ≤ longitude ∧
            longitude ≤ maxFold lons.head! lons.tail)

/-- The `for zone in restricted_response.data` loop: first bounding-box hit
wins and returns the restricted dictionary. -/
def scanRestricted (latitude longitude : ℚ) :
    List RestrictedZone → Option GeofenceResult
  | [] => none
  | z :: zs =>
    if ringHit latitude longitude z.ring then
      some (.restricted z.name z.zone_type z.danger_level)
    else
      scanRestricted latitude longitude zs

/-- The `for zone in safe_response.data` loop. -/
def scanSafe (latitude longitude : ℚ) :
    List SafeZone → Option GeofenceResult
  | [] => none
  | z :: zs =>
    if ringHit latitude longitude z.ring then
      some (.safe z.name z.zone_type z.safety_rating)
    else
      scanSafe latitude longitude zs

/-- Function `check_geofence(latitude, longitude)` from `src/main.py`.  The two
Supabase queries select the rows with `is_active = True`; any exception
inside the `try` block produces `{"geofence_alert": False, "error": str(e)}`,
modelled by the `Except.error` branch of the fetch. -/
def check_geofence (fetch : Except String ZoneDB) (latitude longitude : ℚ) :
    GeofenceResult :=
  match fetch with
  | .error e => .error e
  | .ok db =>
    match scanRestricted latitude longitude
        (db.restricted_zones.filter (·.is_active)) with
    | some r => r
    | none =>
      match scanSafe latitude longitude
          (db.safe_zones.filter (·.is_active)) with
      | some r => r
      | none => .unknown

/-- Function `calculate_anomaly_score(location_data, tourist_data)` from
`src/main.py`, scaled by 10 (all contributions are exact tenths).
Speed bracket: `>80 → +0.9`, `>60 → +0.6`, `>40 → +0.3`, `==0 → +0.2`;
zone: restricted `+0.8`, else unknown area `+0.1`; capped at `1.0`. -/
def calculate_anomaly_score (speed : ℚ) (geofence : GeofenceResult) : ℕ :=
  let speedPart : ℕ :=
    if speed > 80 then 9
    else if speed > 60 then 6
    else if speed > 40 then 3
    else if speed = 0 then 2
    else 0
  let zonePart : ℕ :=
    if geofence.in_restricted_zone then 8
    else if geofence.in_unknown_area then 1
    else 0
  min (speedPart + zonePart) 10

/-- Function `calculate_safety_score(location_data, tourist_data, anomaly_score)` from
`src/main.py`.  Starts at 100, applies the geofence adjustment, the speed
penalty bracket, then subtracts `int(anomaly_score * 30)` (which equals
`3 * anomaly10` exactly, see the header), and clamps to `[0, 100]`. -/
def calculate_safety_score (speed : ℚ) (geofence : GeofenceResult)
    (anomaly10 : ℕ) : Int :=
  let base0 : Int := 100
  let base1 : Int :=
    if geofence.in_restricted_zone then base0 - geofence.danger_level * 15
    else if geofence.in_safe_zone then base0 + (geofence.safety_rating - 3) * 5
    else base0
  let base2 : Int :=
    if speed > 80 then base1 - 40
    else if speed > 60 then base1 - 25
    else if speed > 40 then base1 - 15
    else base1
  let base3 : Int := base2 - 3 * (anomaly10 : Int)
  max 0 (min 100 base3)

/-- The severity mapping at the end of `assess_safety` in `src/main.py`:
`>= 80 → "SAFE"`, `>= 60 → "WARNING"`, else `"CRITICAL"`. -/
def severity_of (safety_score : Int) : String :=
  if safety_score ≥ 80 then "SAFE"
  else if safety_score ≥ 60 then "WARNING"
  else "CRITICAL"

/-- The assessment dictionary built by `assess_safety`. -/
structure AssessmentOut where
  safety_score : Int
  anomaly10 : ℕ
  severity : String
  geofence_alert : Bool
  zone_info : GeofenceResult
  risk_factors : List String
  recommendations : List String
  deriving Repr, DecidableEq

/-- Function `assess_safety(location_data, tourist_data)` from `src/main.py`:
geofence check, anomaly score, safety score, severity band, then the
risk-factor / recommendation lists. -/
def assess_safety (fetch : Except String ZoneDB)
    (latitude longitude speed : ℚ) : AssessmentOut :=
  let geofence_result := check_geofence fetch latitude longitude
  let anomaly10 := calculate_anomaly_score speed geofence_result
  let safety_score := calculate_safety_score speed geofence_result anomaly10
  { safety_score := safety_score
    anomaly10 := anomaly10
    severity := severity_of safety_score
    geofence_alert := geofence_result.geofence_alert
    zone_info := geofence_result
    risk_factors :=
      (if geofence_result.in_restricted_zone then
        ["In restricted/dangerous zone"] else []) ++
      (if speed > 80 then ["Extremely high speed detected"] else []) ++
      (if anomaly10 > 7 then ["Unusual behavior pattern detected"] else [])
    recommendations :=
      (if geofence_result.in_restricted_zone then
        ["Leave the area immediately"] else []) ++
      (if speed > 80 then ["Reduce speed for safety"] else []) ++
      (if anomaly10 > 7 then ["Please confirm your safety status"] else []) }

/-! ## Server state and REST handlers (`src/main.py`) -/

/-- A row of the `tourists` table (the fields the handlers read or write). -/
structure Tourist where
  id : ℕ
  name : String
  contact : String
  emergency_contact : String
  safety_score : Int
  is_active : Bool
  last_location_update : Option ℕ
  updated_at : ℕ
  deriving Repr, DecidableEq

/-- A row of the `locations` table. -/
structure LocationRow where
  id : ℕ
  tourist_id : ℕ
  latitude : ℚ
  longitude : ℚ
  speed : ℚ
  timestamp : ℕ
  deriving Repr, DecidableEq

/-- A row of the `alerts` table (the fields the handlers write). -/
structure Alert where
  id : ℕ
  tourist_id : ℕ
  kind : String
  severity : String
  message : String
  latitude : ℚ
  longitude : ℚ
  auto_generated : Bool
  status : String
  timestamp : ℕ
  deriving Repr, DecidableEq

/-- A row of the `ai_assessments` table (the fields `send_location` writes). -/
structure AssessmentRow where
  tourist_id : ℕ
  location_id : ℕ
  safety_score : Int
  severity : String
  geofence_alert : Bool
  anomaly10 : ℕ
  created_at : ℕ
  deriving Repr, DecidableEq

/-- The store plus the wall clock, as seen by one handler invocation.
`now` stands for `datetime.now()` (all calls inside one handler fall in the
same second for the purposes of the dedup discussion); insert ids are the
store's autoincrement counters. -/
structure ServerState where
  tourists : List Tourist
  locations : List LocationRow
  alerts : List Alert
  assessments : List AssessmentRow
  next_location_id : ℕ
  next_alert_id : ℕ
  now : ℕ
  deriving Repr, DecidableEq

/-- Python `f"{n:06d}"` for a nonnegative integer: decimal digits,
left-padded with zeros to at least width 6. -/
def pad6 (n : ℕ) : String :=
  let s := toString n
  String.mk (List.replicate (6 - s.length) '0') ++ s

/-- Request body of `POST /sendLocation` (optional float fields the
assessment never reads are omitted; `speed` is taken as given — a request
that omits it makes the Python handler raise on `None > 80` and return 500
without persisting an assessment). -/
structure LocationUpdate where
  tourist_id : ℕ
  latitude : ℚ
  longitude : ℚ
  speed : ℚ
  deriving Repr, DecidableEq

/-- Response body of `POST /sendLocation` (fields the claims mention). -/
structure SendLocationResponse where
  location_id : ℕ
  assessment : AssessmentOut
  alert_generated : Bool
  updated_safety_score : Int
  deriving Repr, DecidableEq

/-- Handler `send_location` from `src/main.py`: look up the tourist (404 if absent),
insert the Location row, run `assess_safety`, insert the assessment row,
update the tourist's `safety_score`/`last_location_update`/`updated_at`,
and insert an auto alert when severity is WARNING/CRITICAL or a geofence
alert fired. -/
def send_location (fetch : Except String ZoneDB) (st : ServerState)
    (loc : LocationUpdate) : Except ℕ (ServerState × SendLocationResponse) :=
  match st.tourists.find? (fun t => t.id = loc.tourist_id) with
  | none => .error 404
  | some _tourist =>
    let location_id := st.next_location_id
    let locRow : LocationRow :=
      { id := location_id, tourist_id := loc.tourist_id
        latitude := loc.latitude, longitude := loc.longitude
        speed := loc.speed, timestamp := st.now }
    let assessment := assess_safety fetch loc.latitude loc.longitude loc.speed
    let arow : AssessmentRow :=
      { tourist_id := loc.tourist_id, location_id := location_id
        safety_score := assessment.safety_score
        severity := assessment.severity
        geofence_alert := assessment.geofence_alert
        anomaly10 := assessment.anomaly10
        created_at := st.now }
    let new_safety_score := assessment.safety_score
    let tourists' := st.tourists.map fun t =>
      if t.id = loc.tourist_id then
        { t with safety_score := new_safety_score
                 last_location_update := some st.now
                 updated_at := st.now }
      else t
    let needAlert : Bool :=
      assessment.severity == "WARNING" || assessment.severity == "CRITICAL" ||
        assessment.geofence_alert
    let alerts' :=
      if needAlert then
        st.alerts ++
          [{ id := st.next_alert_id, tourist_id := loc.tourist_id
             kind := if assessment.geofence_alert then "geofence" else "anomaly"
             severity := assessment.severity
             message := "Safety concern detected: " ++ assessment.severity
             latitude := loc.latitude, longitude := loc.longitude
             auto_generated := true, status := "active", timestamp := st.now }]
      else st.alerts
    let st' : ServerState :=
      { st with
        tourists := tourists'
        locations := st.locations ++ [locRow]
        assessments := st.assessments ++ [arow]
        alerts := alerts'
        next_location_id := st.next_location_id + 1
        next_alert_id :=
          if needAlert then st.next_alert_id + 1 else st.next_alert_id }
    .ok (st', { location_id := location_id, assessment := assessment
                alert_generated := needAlert
                updated_safety_score := new_safety_score })

/-- Request body of `POST /pressSOS`. -/
structure SOSAlert where
  tourist_id : ℕ
  latitude : ℚ
  longitude : ℚ
  emergency_type : String
  message : Option String
  deriving Repr, DecidableEq

/-- Response body of `POST /pressSOS` (fields the claims mention). -/
structure SOSResponse where
  alert_id : ℕ
  case_number : String
  emergency_services_notified : Bool
  deriving Repr, DecidableEq

/-- Handler `press_sos` from `src/main.py`: look up the tourist (404 if absent),
insert one alert `{type: "sos", severity: "CRITICAL", ...}`, set the
tourist's `safety_score` to 0 (and `updated_at`), and answer with
`case_number = f"SOS{alert_id:06d}"`. -/
def press_sos (st : ServerState) (sos : SOSAlert) :
    Except ℕ (ServerState × SOSResponse) :=
  match st.tourists.find? (fun t => t.id = sos.tourist_id) with
  | none => .error 404
  | some _tourist =>
    let alert : Alert :=
      { id := st.next_alert_id, tourist_id := sos.tourist_id
        kind := "sos", severity := "CRITICAL"
        message := "SOS Alert: " ++ sos.emergency_type
        latitude := sos.latitude, longitude := sos.longitude
        auto_generated := false, status := "active", timestamp := st.now }
    let st' : ServerState :=
      { st with
        alerts := st.alerts ++ [alert]
        next_alert_id := st.next_alert_id + 1
        tourists := st.tourists.map fun t =>
          if t.id = sos.tourist_id then
            { t with safety_score := 0, updated_at := st.now }
          else t }
    .ok (st', { alert_id := alert.id
                case_number := "SOS" ++ pad6 alert.id
                emergency_services_notified := true })

/-- Request body of `POST /fileEFIR`. -/
structure EFIRData where
  tourist_id : ℕ
  incident_type : String
  location_details : String
  description : String
  latitude : ℚ
  longitude : ℚ
  witness_details : Option String
  deriving Repr, DecidableEq

/-- Response body of `POST /fileEFIR` (fields the claims mention). -/
structure EFIRResponse where
  alert_id : ℕ
  case_number : String
  deriving Repr, DecidableEq

/-- Handler `file_efir` from `src/main.py`: look up the tourist (404 if absent),
insert one alert `{type: "manual", severity: "HIGH", ...}`, mint
`case_number = f"EFIR{alert_id:06d}{YYYYMMDD}"` (`today` stands for
`datetime.now().strftime("%Y%m%d")`), and overwrite the tourist's
`safety_score` with `max(20, current - 30)` (plus `updated_at`). -/
def file_efir (today : String) (st : ServerState) (efir : EFIRData) :
    Except ℕ (ServerState × EFIRResponse) :=
  match st.tourists.find? (fun t => t.id = efir.tourist_id) with
  | none => .error 404
  | some tourist =>
    let alert : Alert :=
      { id := st.next_alert_id, tourist_id := efir.tourist_id
        kind := "manual", severity := "HIGH"
        message := "E-FIR Filed: " ++ efir.incident_type
        latitude := efir.latitude, longitude := efir.longitude
        auto_generated := false, status := "active", timestamp := st.now }
    let new_score : Int := max 20 (tourist.safety_score - 30)
    let st' : ServerState :=
      { st with
        alerts := st.alerts ++ [alert]
        next_alert_id := st.next_alert_id + 1
        tourists := st.tourists.map fun t =>
          if t.id = efir.tourist_id then
            { t with safety_score := new_score, updated_at := st.now }
          else t }
    .ok (st', { alert_id := alert.id
                case_number := "EFIR" ++ pad6 alert.id ++ today })

/-! ## Point-anomaly detector
(`src/ai_ml/models/isolation_forest_detector.py`) -/

/-- The feature vector `ProcessedFeatures` fed to the detector (the four
features `predict` reads). -/
structure ProcessedFeatures where
  distance_per_min : ℚ
  inactivity_duration : ℚ
  deviation_from_route : ℚ
  speed : ℚ
  deriving Repr, DecidableEq

/-- The `ModelPrediction` record returned by `predict`, flattened to the
fields the claims mention: the top-level `score` and `confidence`, and the
`details` entries `anomaly_score` (present only on the untrained branch)
and `is_anomaly`. -/
structure ModelPrediction where
  model_name : String
  score : ℚ
  confidence : ℚ
  detail_anomaly_score : Option ℚ
  detail_is_anomaly : Bool
  detail_trained : Bool
  deriving Repr, DecidableEq

/-- Detector state for `IsolationForestDetector`: the `is_trained` flag and, standing for
the fitted scikit-learn forest and scaler, the scoring map a successful
`train` installed (`decision_function` output and `predict` label paired
per feature vector). -/
structure IsolationForestDetector where
  is_trained : Bool
  decision_function : ProcessedFeatures → ℚ
  label : ProcessedFeatures → Int

/-- Method `_normalize_anomaly_score`: the fitted branch's mapping of the raw
decision-function value into a score (kept abstract at the level the claims
need; `max(0, min(1, (0.5 - raw)))`-style in the source history). -/
def normalize_anomaly_score (raw : ℚ) : ℚ :=
  max 0 (min 1 ((1 : ℚ)/2 - raw))

/-- Method `IsolationForestDetector.predict` from
`src/ai_ml/models/isolation_forest_detector.py`: while `is_trained` is
false it returns the fixed untrained record — neutral top-level
`score = 0.5`, `confidence = 0.0`, and details
`{anomaly_score: 0.0, is_anomaly: False, trained: False}`; once trained it
scores through the fitted forest. -/
def IsolationForestDetector.predict (d : IsolationForestDetector)
    (features : ProcessedFeatures) : ModelPrediction :=
  if d.is_trained = false then
    { model_name := "isolation_forest"
      score := 1/2
      confidence := 0
      detail_anomaly_score := some 0
      detail_is_anomaly := false
      detail_trained := false }
  else
    let raw := d.decision_function features
    { model_name := "isolation_forest"
      score := normalize_anomaly_score raw
      confidence := min (|raw| * 2) 1
      detail_anomaly_score := none
      detail_is_anomaly := d.label features = -1
      detail_trained := true }

/-- The running `base_score` of `calculate_safety_score` just before the
anomaly penalty is subtracted: 100, then the geofence adjustment, then the
speed-bracket penalty. -/
def score_before_anomaly (speed : ℚ) (g : GeofenceResult) : Int :=
  let base0 : Int := 100
  let base1 : Int :=
    if g.in_restricted_zone then base0 - g.danger_level * 15
    else if g.in_safe_zone then base0 + (g.safety_rating - 3) * 5
    else base0
  if speed > 80 then base1 - 40
  else if speed > 60 then base1 - 25
  else if speed > 40 then base1 - 15
  else base1

/-! ## Shared input fixtures for the witnesses -/

/-- An empty zone store (no active zones). -/
def fetch0 : Except String ZoneDB := .ok ⟨[], []⟩

/-- A registered tourist with the registration default `safety_score = 100`. -/
def t0 : Tourist := ⟨1, "A", "+911", "+919", 100, true, none, 0⟩

/-- A server state holding just `t0`, with fresh autoincrement counters. -/
def st0 : ServerState := ⟨[t0], [], [], [], 1, 1, 1000⟩

/-! ## Helper lemmas -/

/-- The tourist-row update loop of the handlers: updating every row whose id
matches through an id-preserving `g` maps `find?` on that id through `g`. -/
theorem find_map_update (g : Tourist → Tourist) (hg : ∀ u, (g u).id = u.id)
    {l : List Tourist} {tid : ℕ} {t : Tourist}
    (h : l.find? (fun u => u.id = tid) = some t) :
    (l.map fun u => if u.id = tid then g u else u).find? (fun u => u.id = tid)
      = some (g t) := by
  induction l with
  | nil => simp at h
  | cons a l ih =>
    rw [List.map_cons]
    by_cases ha : a.id = tid
    · rw [List.find?_cons_of_pos _ (by simp [ha])] at h
      injection h with h
      subst h
      rw [if_pos ha]
      exact List.find?_cons_of_pos _ (by simp [hg, ha])
    · rw [List.find?_cons_of_neg _ (by simp [ha])] at h
      rw [if_neg ha]
      rw [List.find?_cons_of_neg _ (by simp [ha])]
      exact ih h

/-- Band characterisation of the severity mapping in `assess_safety`. -/
theorem severity_of_bands (s : Int) :
    (severity_of s = "SAFE" ↔ 80 ≤ s) ∧
    (severity_of s = "WARNING" ↔ 60 ≤ s ∧ s < 80) ∧
    (severity_of s = "CRITICAL" ↔ s < 60) := by
  unfold severity_of
  split_ifs with h1 h2 <;> simp <;> omega

/-- The final clamp of `calculate_safety_score` keeps every output in
`[0, 100]`. -/
theorem calculate_safety_score_bounds (speed : ℚ) (g : GeofenceResult)
    (a : ℕ) :
    0 ≤ calculate_safety_score speed g a ∧
      calculate_safety_score speed g a ≤ 100 := by
  unfold calculate_safety_score
  exact ⟨le_max_left _ _, max_le (by norm_num) (min_le_left _ _)⟩

/-! ## Claims -/

/-- Claim C1, counterexample. The claim puts the WARNING/CRITICAL boundary at
50.  At speed 70 with no active zones the pipeline produces the score 54 —
inside the claim's WARNING band `50 ≤ score < 80` — yet the code labels it
CRITICAL (`assess_safety` tests `>= 60`, not `>= 50`). -/
theorem C1_counterexample :
    (assess_safety fetch0 0 0 70).safety_score = 54 ∧
    50 ≤ (assess_safety fetch0 0 0 70).safety_score ∧
    (assess_safety fetch0 0 0 70).safety_score < 80 ∧
    (assess_safety fetch0 0 0 70).severity = "CRITICAL" ∧
    (assess_safety fetch0 0 0 70).severity ≠ "WARNING" := by
  refine ⟨rfl, by decide, by decide, rfl, by decide⟩

/-- Claim C1, amended. For every assessment produced from a location update:
`severity = SAFE ⇔ score ≥ 80`, `severity = WARNING ⇔ 60 ≤ score < 80`, and
`severity = CRITICAL ⇔ score < 60` (the code's boundary between WARNING and
CRITICAL is 60, not the claimed 50). -/
theorem C1_severity_bands (fetch : Except String ZoneDB)
    (lat lon speed : ℚ) :
    ((assess_safety fetch lat lon speed).severity = "SAFE" ↔
      80 ≤ (assess_safety fetch lat lon speed).safety_score) ∧
    ((assess_safety fetch lat lon speed).severity = "WARNING" ↔
      60 ≤ (assess_safety fetch lat lon speed).safety_score ∧
        (assess_safety fetch lat lon speed).safety_score < 80) ∧
    ((assess_safety fetch lat lon speed).severity = "CRITICAL" ↔
      (assess_safety fetch lat lon speed).safety_score < 60) := by
  have h : (assess_safety fetch lat lon speed).severity
      = severity_of (assess_safety fetch lat lon speed).safety_score := rfl
  rw [h]
  exact severity_of_bands _

/-- Claim C2. For every location update accepted by `send_location`, the
safety score returned by the fusion is in `[0, 100]`; exactly that clamped
value is appended as the persisted Assessment row and written back to the
tourist's row. -/
theorem C2_score_bounded_and_persisted (fetch : Except String ZoneDB)
    (st : ServerState) (loc : LocationUpdate)
    (st' : ServerState) (resp : SendLocationResponse)
    (h : send_location fetch st loc = Except.ok (st', resp)) :
    0 ≤ resp.assessment.safety_score ∧
    resp.assessment.safety_score ≤ 100 ∧
    st'.assessments.map AssessmentRow.safety_score
      = st.assessments.map AssessmentRow.safety_score ++
          [resp.assessment.safety_score] ∧
    (st'.tourists.find? fun t => t.id = loc.tourist_id).map Tourist.safety_score
      = some resp.assessment.safety_score ∧
    resp.updated_safety_score = resp.assessment.safety_score := by
  unfold send_location at h
  cases hfind : st.tourists.find? (fun t => t.id = loc.tourist_id) with
  | none => rw [hfind] at h; exact absurd h (by simp)
  | some t =>
    rw [hfind] at h
    simp only [Except.ok.injEq, Prod.mk.injEq] at h
    obtain ⟨rfl, rfl⟩ := h
    refine ⟨(calculate_safety_score_bounds _ _ _).1,
      (calculate_safety_score_bounds _ _ _).2, by simp, ?_, rfl⟩
    have hm := find_map_update
      (fun u => { u with
        safety_score := (assess_safety fetch loc.latitude loc.longitude
          loc.speed).safety_score
        last_location_update := some st.now
        updated_at := st.now })
      (fun u => rfl) hfind
    rw [hm]
    rfl

/-- The location update of the C2 witness run. -/
def locW2 : LocationUpdate := ⟨1, 10, 20, 3⟩

/-- The server state after the C2 witness run. -/
def stW2 : ServerState :=
  ⟨[⟨1, "A", "+911", "+919", 97, true, some 1000, 1000⟩],
   [⟨1, 1, 10, 20, 3, 1000⟩], [], [⟨1, 1, 97, "SAFE", false, 1, 1000⟩],
   2, 1, 1000⟩

/-- The response of the C2 witness run. -/
def respW2 : SendLocationResponse :=
  ⟨1, ⟨97, 1, "SAFE", false, .unknown, [], []⟩, false, 97⟩

/-- Claim C2, witness. A concrete accepted update (tourist 1, empty zone
tables, speed 3) realises the hypothesis of
`C2_score_bounded_and_persisted`. -/
theorem C2_witness :
    0 ≤ respW2.assessment.safety_score ∧
    respW2.assessment.safety_score ≤ 100 ∧
    stW2.assessments.map AssessmentRow.safety_score
      = st0.assessments.map AssessmentRow.safety_score ++
          [respW2.assessment.safety_score] ∧
    (stW2.tourists.find? fun t => t.id = locW2.tourist_id).map
        Tourist.safety_score
      = some respW2.assessment.safety_score ∧
    respW2.updated_safety_score = respW2.assessment.safety_score :=
  C2_score_bounded_and_persisted fetch0 st0 locW2 stW2 respW2 (by rfl)

/-- Claim C3. For every SOS request on an existing tourist, `press_sos`
appends exactly one Alert of kind `sos` with severity CRITICAL, sets the
tourist's `safety_score` to 0, and returns
`case_number = "SOS" ++ alert id zero-padded to 6 digits`. -/
theorem C3_press_sos_effects (st : ServerState) (sos : SOSAlert)
    (st' : ServerState) (resp : SOSResponse)
    (h : press_sos st sos = Except.ok (st', resp)) :
    st'.alerts = st.alerts ++
      [{ id := st.next_alert_id, tourist_id := sos.tourist_id
         kind := "sos", severity := "CRITICAL"
         message := "SOS Alert: " ++ sos.emergency_type
         latitude := sos.latitude, longitude := sos.longitude
         auto_generated := false, status := "active", timestamp := st.now }] ∧
    (st'.tourists.find? fun t => t.id = sos.tourist_id).map Tourist.safety_score
      = some 0 ∧
    resp.alert_id = st.next_alert_id ∧
    resp.case_number = "SOS" ++ pad6 resp.alert_id := by
  unfold press_sos at h
  cases hfind : st.tourists.find? (fun t => t.id = sos.tourist_id) with
  | none => rw [hfind] at h; exact absurd h (by simp)
  | some t =>
    rw [hfind] at h
    simp only [Except.ok.injEq, Prod.mk.injEq] at h
    obtain ⟨rfl, rfl⟩ := h
    refine ⟨rfl, ?_, rfl, rfl⟩
    have hm := find_map_update
      (fun u => { u with safety_score := 0, updated_at := st.now })
      (fun u => rfl) hfind
    rw [hm]
    rfl

/-- The SOS request of the C3 witness run. -/
def sosW3 : SOSAlert := ⟨1, 10, 20, "panic", none⟩

/-- The server state after the C3 witness run. -/
def stW3 : ServerState :=
  ⟨[⟨1, "A", "+911", "+919", 0, true, none, 1000⟩], [],
   [⟨1, 1, "sos", "CRITICAL", "SOS Alert: panic", 10, 20, false, "active",
     1000⟩], [], 1, 2, 1000⟩

/-- The response of the C3 witness run (`pad6 1 = "000001"`). -/
def respW3 : SOSResponse := ⟨1, "SOS000001", true⟩

/-- Claim C3, witness. A concrete SOS on tourist 1 realises the hypothesis of
`C3_press_sos_effects`. -/
theorem C3_witness :
    stW3.alerts = st0.alerts ++
      [{ id := st0.next_alert_id, tourist_id := sosW3.tourist_id
         kind := "sos", severity := "CRITICAL"
         message := "SOS Alert: " ++ sosW3.emergency_type
         latitude := sosW3.latitude, longitude := sosW3.longitude
         auto_generated := false, status := "active", timestamp := st0.now }] ∧
    (stW3.tourists.find? fun t => t.id = sosW3.tourist_id).map
        Tourist.safety_score = some 0 ∧
    respW3.alert_id = st0.next_alert_id ∧
    respW3.case_number = "SOS" ++ pad6 respW3.alert_id :=
  C3_press_sos_effects st0 sosW3 stW3 respW3 (by rfl)

/-- Claim C4, counterexample. The claim says the point-anomaly contribution is
`⌊anomaly_score × 25⌋`.  At speed 3 in an unknown area the anomaly score is
0.1 (`anomaly10 = 1`) and the code subtracts 3 points
(`int(0.1 * 30) = 3`), while `⌊0.1 × 25⌋ = 2`. -/
theorem C4_counterexample :
    (100 : Int) - calculate_safety_score 3 GeofenceResult.unknown 1 = 3 ∧
    (3 : Int) ≠ Int.floor (((1 : ℚ)/10) * 25) := by
  constructor
  · decide
  · intro hc
    have h25 : Int.floor (((1 : ℚ)/10) * 25) = 2 := by norm_num
    rw [h25] at hc
    exact absurd hc (by decide)

/-- Claim C4, amended. In the fusion (which has no SOS side channel and no
detector-confidence gate), the point-anomaly contribution subtracts exactly
`⌊anomaly_score × 30⌋` from the running score — unconditionally — before
the final clamp: with the anomaly score carried in tenths,
`calculate_safety_score` equals the pre-anomaly score minus
`⌊(anomaly10/10) × 30⌋`, clamped to `[0, 100]`. -/
theorem C4_anomaly_penalty (speed : ℚ) (g : GeofenceResult) (a : ℕ) :
    calculate_safety_score speed g a =
      max 0 (min 100
        (score_before_anomaly speed g - Int.floor (((a : ℚ)/10) * 30))) := by
  have hfl : Int.floor (((a : ℚ)/10) * 30) = 3 * (a : Int) := by
    have h : ((a : ℚ)/10) * 30 = ((3 * (a : Int) : Int) : ℚ) := by
      push_cast; ring
    rw [h, Int.floor_intCast]
  rw [hfl]; rfl

/-- Claim C5, counterexample. The claim expects score exactly 100 for
`{tourist_id: 1, lat: 28.6129, lon: 77.2295, speed: 3}` with no active
zones; the code classifies the point as "unknown area", adds anomaly score
0.1, and subtracts `int(0.1*30) = 3`, producing 97. -/
theorem C5_counterexample :
    (assess_safety fetch0 (286129/10000) (772295/10000) 3).safety_score = 97 ∧
    (assess_safety fetch0 (286129/10000) (772295/10000) 3).safety_score
      ≠ 100 := by
  constructor
  · decide
  · decide

/-- Claim C5, amended. Sending `{tourist_id: 1, lat: 28.6129, lon: 77.2295,
speed: 3}` when no zone is active yields an assessment with score exactly
97 (not 100), severity SAFE, and `alert_generated = false`. -/
theorem C5_scenario :
    ((send_location fetch0 st0 ⟨1, 286129/10000, 772295/10000, 3⟩).map
      fun p => (p.2.assessment.safety_score, p.2.assessment.severity,
        p.2.alert_generated)).toOption
      = some (97, "SAFE", false) := by
  decide

/-- A `foldl min` over a nonempty list is at most `a` iff some element of
the list (including the seed) is. -/
theorem minFold_le_iff (a x : ℚ) (xs : List ℚ) :
    minFold x xs ≤ a ↔ x ≤ a ∨ ∃ y ∈ xs, y ≤ a := by
  induction xs generalizing x with
  | nil => simp [minFold]
  | cons h t ih =>
    simp only [minFold, List.foldl_cons]
    rw [show List.foldl min (min x h) t = minFold (min x h) t from rfl, ih,
      min_le_iff]
    simp only [List.mem_cons]
    constructor
    · rintro ((hx | hh) | ⟨y, hy, hya⟩)
      · exact Or.inl hx
      · exact Or.inr ⟨h, Or.inl rfl, hh⟩
      · exact Or.inr ⟨y, Or.inr hy, hya⟩
    · rintro (hx | ⟨y, (rfl | hy), hya⟩)
      · exact Or.inl (Or.inl hx)
      · exact Or.inl (Or.inr hya)
      · exact Or.inr ⟨y, hy, hya⟩

/-- A `foldl max` over a nonempty list is at least `a` iff some element of
the list (including the seed) is. -/
theorem le_maxFold_iff (a x : ℚ) (xs : List ℚ) :
    a ≤ maxFold x xs ↔ a ≤ x ∨ ∃ y ∈ xs, a ≤ y := by
  induction xs generalizing x with
  | nil => simp [maxFold]
  | cons h t ih =>
    simp only [maxFold, List.foldl_cons]
    rw [show List.foldl max (max x h) t = maxFold (max x h) t from rfl, ih,
      le_max_iff]
    simp only [List.mem_cons]
    constructor
    · rintro ((hx | hh) | ⟨y, hy, hya⟩)
      · exact Or.inl hx
      · exact Or.inr ⟨h, Or.inl rfl, hh⟩
      · exact Or.inr ⟨y, Or.inr hy, hya⟩
    · rintro (hx | ⟨y, (rfl | hy), hya⟩)
      · exact Or.inl (Or.inl hx)
      · exact Or.inl (Or.inr hya)
      · exact Or.inr ⟨y, hy, hya⟩

/-- Bounding-box semantics of the zone-loop test: a nonempty ring hits iff
the latitude lies between the minimum and maximum ring latitudes and the
longitude between the minimum and maximum ring longitudes (stated via
attained bounds; an empty ring never hits). -/
theorem ringHit_iff (lat lon : ℚ) (ring : List (ℚ × ℚ)) :
    ringHit lat lon ring = true ↔
      (∃ p ∈ ring, p.2 ≤ lat) ∧ (∃ p ∈ ring, lat ≤ p.2) ∧
      (∃ p ∈ ring, p.1 ≤ lon) ∧ (∃ p ∈ ring, lon ≤ p.1) := by
  cases ring with
  | nil => simp [ringHit]
  | cons p ps =>
    show decide _ = true ↔ _
    rw [decide_eq_true_iff]
    rw [show ((p :: ps).map Prod.snd).head! = p.2 from rfl,
      show ((p :: ps).map Prod.snd).tail = ps.map Prod.snd from rfl,
      show ((p :: ps).map Prod.fst).head! = p.1 from rfl,
      show ((p :: ps).map Prod.fst).tail = ps.map Prod.fst from rfl]
    rw [minFold_le_iff, le_maxFold_iff, minFold_le_iff, le_maxFold_iff]
    simp only [List.mem_map, List.mem_cons]
    constructor
    · rintro ⟨h1, h2, h3, h4⟩
      refine ⟨?_, ?_, ?_, ?_⟩
      · rcases h1 with h | ⟨y, ⟨q, hq, rfl⟩, hy⟩
        · exact ⟨p, Or.inl rfl, h⟩
        · exact ⟨q, Or.inr hq, hy⟩
      · rcases h2 with h | ⟨y, ⟨q, hq, rfl⟩, hy⟩
        · exact ⟨p, Or.inl rfl, h⟩
        · exact ⟨q, Or.inr hq, hy⟩
      · rcases h3 with h | ⟨y, ⟨q, hq, rfl⟩, hy⟩
        · exact ⟨p, Or.inl rfl, h⟩
        · exact ⟨q, Or.inr hq, hy⟩
      · rcases h4 with h | ⟨y, ⟨q, hq, rfl⟩, hy⟩
        · exact ⟨p, Or.inl rfl, h⟩
        · exact ⟨q, Or.inr hq, hy⟩
    · rintro ⟨⟨q1, hq1, h1⟩, ⟨q2, hq2, h2⟩, ⟨q3, hq3, h3⟩, ⟨q4, hq4, h4⟩⟩
      refine ⟨?_, ?_, ?_, ?_⟩
      · rcases hq1 with rfl | hq1
        · exact Or.inl h1
        · exact Or.inr ⟨q1.2, ⟨q1, hq1, rfl⟩, h1⟩
      · rcases hq2 with rfl | hq2
        · exact Or.inl h2
        · exact Or.inr ⟨q2.2, ⟨q2, hq2, rfl⟩, h2⟩
      · rcases hq3 with rfl | hq3
        · exact Or.inl h3
        · exact Or.inr ⟨q3.1, ⟨q3, hq3, rfl⟩, h3⟩
      · rcases hq4 with rfl | hq4
        · exact Or.inl h4
        · exact Or.inr ⟨q4.1, ⟨q4, hq4, rfl⟩, h4⟩

/-- The restricted-zone loop returns the verdict of the first bounding-box
hit, i.e. it is `List.find?` on the hit test. -/
theorem scanRestricted_eq (lat lon : ℚ) (l : List RestrictedZone) :
    scanRestricted lat lon l
      = (l.find? fun z => ringHit lat lon z.ring).map
          (fun z => GeofenceResult.restricted z.name z.zone_type
            z.danger_level) := by
  induction l with
  | nil => rfl
  | cons z zs ih =>
    cases hz : ringHit lat lon z.ring with
    | true =>
      rw [List.find?_cons_of_pos (p := fun (w : RestrictedZone) => ringHit lat lon w.ring) _ hz]
      simp [scanRestricted, hz]
    | false =>
      rw [List.find?_cons_of_neg (p := fun (w : RestrictedZone) => ringHit lat lon w.ring) _
        (by simp [hz])]
      simp [scanRestricted, hz, ih]

/-- The safe-zone loop returns the verdict of the first bounding-box hit. -/
theorem scanSafe_eq (lat lon : ℚ) (l : List SafeZone) :
    scanSafe lat lon l
      = (l.find? fun z => ringHit lat lon z.ring).map
          (fun z => GeofenceResult.safe z.name z.zone_type
            z.safety_rating) := by
  induction l with
  | nil => rfl
  | cons z zs ih =>
    cases hz : ringHit lat lon z.ring with
    | true =>
      rw [List.find?_cons_of_pos (p := fun (w : SafeZone) => ringHit lat lon w.ring) _ hz]
      simp [scanSafe, hz]
    | false =>
      rw [List.find?_cons_of_neg (p := fun (w : SafeZone) => ringHit lat lon w.ring) _
        (by simp [hz])]
      simp [scanSafe, hz, ih]

/-- Claim C6.  For every coordinate pair, `check_geofence` tests the active
restricted zones first and returns the restricted verdict of the first
bounding-box match; only if none matches does it test the active safe
zones (first match again); otherwise it returns the unknown verdict.
Containment is the axis-aligned bounding box of the zone's ring —
`ringHit_iff` gives the bbox reading of the hit test. -/
theorem C6_geofence_lookup (db : ZoneDB) (lat lon : ℚ) :
    (check_geofence (Except.ok db) lat lon =
      (match (db.restricted_zones.filter fun z => z.is_active).find?
          (fun z => ringHit lat lon z.ring) with
       | some z => GeofenceResult.restricted z.name z.zone_type z.danger_level
       | none =>
         match (db.safe_zones.filter fun z => z.is_active).find?
             (fun z => ringHit lat lon z.ring) with
         | some z => GeofenceResult.safe z.name z.zone_type z.safety_rating
         | none => GeofenceResult.unknown)) ∧
    (∀ ring : List (ℚ × ℚ), ringHit lat lon ring = true ↔
      (∃ p ∈ ring, p.2 ≤ lat) ∧ (∃ p ∈ ring, lat ≤ p.2) ∧
      (∃ p ∈ ring, p.1 ≤ lon) ∧ (∃ p ∈ ring, lon ≤ p.1)) := by
  refine ⟨?_, fun ring => ringHit_iff lat lon ring⟩
  show (match scanRestricted lat lon
      (db.restricted_zones.filter (·.is_active)) with
    | some r => r
    | none =>
      match scanSafe lat lon (db.safe_zones.filter (·.is_active)) with
      | some r => r
      | none => GeofenceResult.unknown) = _
  rw [scanRestricted_eq, scanSafe_eq]
  cases h1 : (db.restricted_zones.filter fun z => z.is_active).find?
      (fun z => ringHit lat lon z.ring) with
  | some z => simp
  | none =>
    cases h2 : (db.safe_zones.filter fun z => z.is_active).find?
        (fun z => ringHit lat lon z.ring) with
    | some z => simp
    | none => simp


/-- Claim C7.  Before any fit of the point-anomaly detector has succeeded
(`is_trained = false`), `predict` returns the untrained default: the
`anomaly_score` detail 0.0, `is_anomaly` false, and confidence 0.0 (the
top-level neutral `score` is 0.5). -/
theorem C7_untrained_default (d : IsolationForestDetector)
    (f : ProcessedFeatures) (h : d.is_trained = false) :
    (d.predict f).detail_anomaly_score = some 0 ∧
    (d.predict f).detail_is_anomaly = false ∧
    (d.predict f).confidence = 0 := by
  unfold IsolationForestDetector.predict
  rw [h]
  simp

/-- An untrained detector instance for the C7 witness. -/
def dW7 : IsolationForestDetector := ⟨false, fun _ => 0, fun _ => 1⟩

/-- Claim C7, witness.  A concrete untrained detector scored on a concrete
feature vector realises the hypothesis of `C7_untrained_default`. -/
theorem C7_witness :
    (dW7.predict ⟨0, 0, 0, 3⟩).detail_anomaly_score = some 0 ∧
    (dW7.predict ⟨0, 0, 0, 3⟩).detail_is_anomaly = false ∧
    (dW7.predict ⟨0, 0, 0, 3⟩).confidence = 0 :=
  C7_untrained_default dW7 ⟨0, 0, 0, 3⟩ (by rfl)

/-- Claim C8, counterexample.  Two identical SOS raises (same tourist, same
kind, same clock second, identical coordinates — hence equal after any
rounding) do NOT produce exactly one persisted Alert row: the second raise
inserts another row, leaving two rows with the identical
(tourist, kind, timestamp, latitude, longitude) key. -/
theorem C8_counterexample :
    (((press_sos st0 ⟨1, 10, 20, "panic", none⟩).bind fun p =>
        press_sos p.1 ⟨1, 10, 20, "panic", none⟩).map fun p =>
      p.1.alerts.map fun a =>
        (a.tourist_id, a.kind, a.timestamp, a.latitude,
          a.longitude)).toOption
      = some [(1, "sos", 1000, 10, 20), (1, "sos", 1000, 10, 20)] ∧
    (2 : ℕ) ≠ 1 := by
  exact ⟨by decide, by decide⟩

/-- Claim C8, amended.  There is no alert deduplication: raising the same
alert twice (same tourist, kind, coordinates, within the same clock value,
i.e. certainly within the same bucketed second) persists TWO Alert rows —
the second raise appends a row identical to the first except for the
autoincrement id. -/
theorem C8_no_dedup (st : ServerState) (sos : SOSAlert)
    (st1 : ServerState) (r1 : SOSResponse)
    (st2 : ServerState) (r2 : SOSResponse)
    (h1 : press_sos st sos = Except.ok (st1, r1))
    (h2 : press_sos st1 sos = Except.ok (st2, r2)) :
    st2.alerts = st.alerts ++
      [{ id := st.next_alert_id, tourist_id := sos.tourist_id
         kind := "sos", severity := "CRITICAL"
         message := "SOS Alert: " ++ sos.emergency_type
         latitude := sos.latitude, longitude := sos.longitude
         auto_generated := false, status := "active", timestamp := st.now },
       { id := st.next_alert_id + 1, tourist_id := sos.tourist_id
         kind := "sos", severity := "CRITICAL"
         message := "SOS Alert: " ++ sos.emergency_type
         latitude := sos.latitude, longitude := sos.longitude
         auto_generated := false, status := "active", timestamp := st.now }] ∧
    st2.alerts.length = st.alerts.length + 2 := by
  unfold press_sos at h1
  cases hf1 : st.tourists.find? (fun t => t.id = sos.tourist_id) with
  | none => rw [hf1] at h1; exact absurd h1 (by simp)
  | some t =>
    rw [hf1] at h1
    simp only [Except.ok.injEq, Prod.mk.injEq] at h1
    obtain ⟨rfl, rfl⟩ := h1
    unfold press_sos at h2
    cases hf2 : List.find? (fun u => u.id = sos.tourist_id)
        (st.tourists.map fun u =>
          if u.id = sos.tourist_id then
            { u with safety_score := 0, updated_at := st.now }
          else u) with
    | none =>
      rw [show (List.find? (fun t => t.id = sos.tourist_id)
          (st.tourists.map fun u =>
            if u.id = sos.tourist_id then
              { u with safety_score := 0, updated_at := st.now }
            else u)) = none from hf2] at h2
      exact absurd h2 (by simp)
    | some u =>
      rw [show (List.find? (fun t => t.id = sos.tourist_id)
          (st.tourists.map fun u =>
            if u.id = sos.tourist_id then
              { u with safety_score := 0, updated_at := st.now }
            else u)) = some u from hf2] at h2
      simp only [Except.ok.injEq, Prod.mk.injEq] at h2
      obtain ⟨rfl, rfl⟩ := h2
      refine ⟨?_, ?_⟩
      · simp
      · simp

/-- The SOS request of the C8 witness run. -/
def sosW8 : SOSAlert := ⟨1, 10, 20, "panic", none⟩

/-- The server state after the first C8 witness raise. -/
def stW8a : ServerState :=
  ⟨[⟨1, "A", "+911", "+919", 0, true, none, 1000⟩], [],
   [⟨1, 1, "sos", "CRITICAL", "SOS Alert: panic", 10, 20, false, "active",
     1000⟩], [], 1, 2, 1000⟩

/-- The server state after the second C8 witness raise. -/
def stW8b : ServerState :=
  ⟨[⟨1, "A", "+911", "+919", 0, true, none, 1000⟩], [],
   [⟨1, 1, "sos", "CRITICAL", "SOS Alert: panic", 10, 20, false, "active",
     1000⟩,
    ⟨2, 1, "sos", "CRITICAL", "SOS Alert: panic", 10, 20, false, "active",
     1000⟩], [], 1, 3, 1000⟩

/-- Claim C8, witness.  A concrete double raise realises both hypotheses of
`C8_no_dedup`. -/
theorem C8_witness :
    stW8b.alerts = st0.alerts ++
      [{ id := st0.next_alert_id, tourist_id := sosW8.tourist_id
         kind := "sos", severity := "CRITICAL"
         message := "SOS Alert: " ++ sosW8.emergency_type
         latitude := sosW8.latitude, longitude := sosW8.longitude
         auto_generated := false, status := "active", timestamp := st0.now },
       { id := st0.next_alert_id + 1, tourist_id := sosW8.tourist_id
         kind := "sos", severity := "CRITICAL"
         message := "SOS Alert: " ++ sosW8.emergency_type
         latitude := sosW8.latitude, longitude := sosW8.longitude
         auto_generated := false, status := "active", timestamp := st0.now }] ∧
    stW8b.alerts.length = st0.alerts.length + 2 :=
  C8_no_dedup st0 sosW8 stW8a ⟨1, "SOS000001", true⟩ stW8b
    ⟨2, "SOS000002", true⟩ (by rfl) (by rfl)

/-- Claim C9.  For every successful `/fileEFIR` on an existing tourist, the
handler appends one HIGH-severity `manual` alert AND — a safety-score
writer outside the fusion path — overwrites the tourist's `safety_score`
with `max(20, current - 30)`, touching only `safety_score` and
`updated_at` on that row (the record-update form of the conclusion keeps
every other field), and leaving locations and assessments untouched. -/
theorem C9_efir_effects (today : String) (st : ServerState) (e : EFIRData)
    (t : Tourist) (st2 : ServerState) (r : EFIRResponse)
    (hfind : st.tourists.find? (fun u => u.id = e.tourist_id) = some t)
    (h : file_efir today st e = Except.ok (st2, r)) :
    st2.alerts = st.alerts ++
      [{ id := st.next_alert_id, tourist_id := e.tourist_id
         kind := "manual", severity := "HIGH"
         message := "E-FIR Filed: " ++ e.incident_type
         latitude := e.latitude, longitude := e.longitude
         auto_generated := false, status := "active", timestamp := st.now }] ∧
    (st2.tourists.find? fun u => u.id = e.tourist_id)
      = some { t with safety_score := max 20 (t.safety_score - 30)
                      updated_at := st.now } ∧
    st2.locations = st.locations ∧
    st2.assessments = st.assessments := by
  unfold file_efir at h
  rw [hfind] at h
  simp only [Except.ok.injEq, Prod.mk.injEq] at h
  obtain ⟨rfl, rfl⟩ := h
  refine ⟨rfl, ?_, rfl, rfl⟩
  exact find_map_update
    (fun u => { u with safety_score := max 20 (t.safety_score - 30)
                       updated_at := st.now })
    (fun u => rfl) hfind

/-- The E-FIR request of the C9 witness run. -/
def eW9 : EFIRData := ⟨1, "Theft", "Market", "Bag stolen", 10, 20, none⟩

/-- The server state after the C9 witness run
(`max 20 (100 - 30) = 70`). -/
def stW9 : ServerState :=
  ⟨[⟨1, "A", "+911", "+919", 70, true, none, 1000⟩], [],
   [⟨1, 1, "manual", "HIGH", "E-FIR Filed: Theft", 10, 20, false, "active",
     1000⟩], [], 1, 2, 1000⟩

/-- Claim C9, witness.  A concrete E-FIR filing on tourist 1 (score 100)
realises both hypotheses of `C9_efir_effects`. -/
theorem C9_witness :
    stW9.alerts = st0.alerts ++
      [{ id := st0.next_alert_id, tourist_id := eW9.tourist_id
         kind := "manual", severity := "HIGH"
         message := "E-FIR Filed: " ++ eW9.incident_type
         latitude := eW9.latitude, longitude := eW9.longitude
         auto_generated := false, status := "active", timestamp := st0.now }] ∧
    (stW9.tourists.find? fun u => u.id = eW9.tourist_id)
      = some { t0 with safety_score := max 20 (t0.safety_score - 30)
                       updated_at := st0.now } ∧
    stW9.locations = st0.locations ∧
    stW9.assessments = st0.assessments :=
  C9_efir_effects "20250927" st0 eW9 t0 stW9 ⟨1, "EFIR00000120250927"⟩
    (by rfl) (by rfl)

/-- Claim C10.  If the zone lookup inside `check_geofence` raises, the
function returns the fallback verdict with `geofence_alert = false` that
carries the error string; every zone flag is falsy, so the assessment
proceeds treating the location as unrestricted (the normal fusion runs on
the fallback verdict and the severity is the ordinary band of the score),
and `send_location` still answers success — no error is surfaced and no
degraded marker exists. -/
theorem C10_geofence_error_swallowed (e : String) (lat lon speed : ℚ)
    (st : ServerState) (loc : LocationUpdate)
    (hex : (st.tourists.find? fun t => t.id = loc.tourist_id).isSome
      = true) :
    (check_geofence (Except.error e) lat lon).geofence_alert = false ∧
    (check_geofence (Except.error e) lat lon).error_field = some e ∧
    (check_geofence (Except.error e) lat lon).in_restricted_zone = false ∧
    (check_geofence (Except.error e) lat lon).in_safe_zone = false ∧
    (check_geofence (Except.error e) lat lon).in_unknown_area = false ∧
    (assess_safety (Except.error e) lat lon speed).safety_score
      = calculate_safety_score speed (GeofenceResult.error e)
          (calculate_anomaly_score speed (GeofenceResult.error e)) ∧
    (assess_safety (Except.error e) lat lon speed).severity
      = severity_of (assess_safety (Except.error e) lat lon speed).safety_score ∧
    (send_location (Except.error e) st loc).isOk = true := by
  refine ⟨rfl, rfl, rfl, rfl, rfl, rfl, rfl, ?_⟩
  unfold send_location
  cases hfind : st.tourists.find? (fun t => t.id = loc.tourist_id) with
  | none => rw [hfind] at hex; exact absurd hex (by simp)
  | some t => rfl

/-- Claim C10, witness.  A concrete failing lookup over a state holding
tourist 1 realises the hypothesis of `C10_geofence_error_swallowed`. -/
theorem C10_witness :
    (check_geofence (Except.error "boom") 10 20).geofence_alert = false ∧
    (check_geofence (Except.error "boom") 10 20).error_field = some "boom" ∧
    (check_geofence (Except.error "boom") 10 20).in_restricted_zone = false ∧
    (check_geofence (Except.error "boom") 10 20).in_safe_zone = false ∧
    (check_geofence (Except.error "boom") 10 20).in_unknown_area = false ∧
    (assess_safety (Except.error "boom") 10 20 3).safety_score
      = calculate_safety_score 3 (GeofenceResult.error "boom")
          (calculate_anomaly_score 3 (GeofenceResult.error "boom")) ∧
    (assess_safety (Except.error "boom") 10 20 3).severity
      = severity_of (assess_safety (Except.error "boom") 10 20 3).safety_score ∧
    (send_location (Except.error "boom") st0 ⟨1, 10, 20, 3⟩).isOk = true :=
  C10_geofence_error_swallowed "boom" 10 20 3 st0 ⟨1, 10, 20, 3⟩ (by rfl)

end SIH
